import Mathlib

/-!
Verification of the `error_specs` package (error-message former, exception
hierarchy and validation helpers) against its natural-language specification.

The Python sources are shallowly embedded as Lean definitions:

* `errmsg.py`: `ErrorMessageFormer` with `_join_args` and its callers;
* `exceptions.py`: `VTException.__str__`, `VTCmdException.__init__`,
  `VTCmdException.cause`;
* `utils.py`: `require_type`, `require_iterable` over a universe `PyVal`
  of Python runtime values.

Raising an exception is embedded as returning the `.error` side of an
`Except`; a raised `VTExitingException` is recorded together with its class
name, message arguments, exit code and attached `__cause__`.
-/

namespace VtErr

/-- The apostrophe character as a string, used in Python-style error messages. -/
def apos : String := String.singleton (Char.ofNat 39)

/-- Python `sep.join(items)`. -/
def strJoin (sep : String) : List String → String
  | [] => ""
  | [a] => a
  | a :: b :: rest => a ++ sep ++ strJoin sep (b :: rest)

/-- Embedding of `ErrorMessageFormer.__init__` state (`errmsg.py`): locale
(placeholder), Oxford-comma flag and the conjunction mapping, kept as an
association list. -/
structure ErrorMessageFormer where
  locale : String
  use_oxford_comma : Bool
  conjunctions : List (String × String)
deriving DecidableEq

/-- The module-level `ErrorMsgFormer` singleton: `locale="en"`,
`use_oxford_comma=False`, `conjunctions={"and": "and", "or": "or"}`. -/
def ErrorMsgFormer : ErrorMessageFormer :=
  { locale := "en", use_oxford_comma := false
    conjunctions := [("and", "and"), ("or", "or")] }

/-- Embedding of `ErrorMessageFormer._join_args`.  The source reads
`conjunction = self.conjunctions.get(conj_type, conj_type)` — a dictionary
get with the key itself as the default — then branches on the length of
`items`.  The `items[0]` fall-through raises `IndexError` on an empty list,
embedded as `none`. -/
def ErrorMessageFormer.joinArgs (f : ErrorMessageFormer) (items0 : List String)
    (conjType : String) (surroundItem : String) : Option String :=
  let conjunction := (f.conjunctions.lookup conjType).getD conjType
  let items := if surroundItem = "" then items0
    else items0.map (fun i => surroundItem ++ i ++ surroundItem)
  match items with
  | [a, b] => some (a ++ " " ++ conjunction ++ " " ++ b)
  | a :: b :: c :: rest =>
    let comma := if f.use_oxford_comma then "," else ""
    some (strJoin ", " ((a :: b :: c :: rest).dropLast) ++ comma ++ " " ++ conjunction
      ++ " " ++ (a :: b :: c :: rest).getLast (List.cons_ne_nil a (b :: c :: rest)))
  | [a] => some a
  | [] => none

/-- Embedding of `ErrorMessageFormer.not_allowed_together`. -/
def ErrorMessageFormer.not_allowed_together (f : ErrorMessageFormer)
    (firstArg secondArg : String) (args : List String)
    (pre suf : String) : Option String :=
  (f.joinArgs (firstArg :: secondArg :: args) "and" "").map (fun j => pre ++ j ++ suf)

/-- Embedding of `ErrorMessageFormer.at_least_one_required`. -/
def ErrorMessageFormer.at_least_one_required (f : ErrorMessageFormer)
    (firstArg secondArg : String) (args : List String)
    (pre suf : String) : Option String :=
  (f.joinArgs (firstArg :: secondArg :: args) "or" "").map
    (fun j => pre ++ "Either " ++ j ++ suf)

/-- Embedding of `ErrorMessageFormer.all_required` (`"Both"` for two items,
`"All"` for three or more). -/
def ErrorMessageFormer.all_required (f : ErrorMessageFormer)
    (firstArg secondArg : String) (args : List String)
    (pre suf : String) : Option String :=
  let allArgs := firstArg :: secondArg :: args
  let keyword := if allArgs.length = 2 then "Both" else "All"
  (f.joinArgs allArgs "and" "").map (fun j => pre ++ keyword ++ " " ++ j ++ suf)

/-- Embedding of `ErrorMessageFormer.errmsg_for_choices`.  `if emphasis` and
`if choices` are Python truthiness tests, so an empty string or empty list
behaves like `None`. -/
def ErrorMessageFormer.errmsg_for_choices (f : ErrorMessageFormer)
    (value : String) (emphasis : Option String)
    (choices : Option (List String))
    (pre suf : String) : Option String :=
  let emphasisPart := match emphasis with
    | some e => if e = "" then "" else e ++ " "
    | none => ""
  let msg := pre ++ emphasisPart ++ value ++ "."
  match choices with
  | some cs =>
    if cs = [] then some (msg ++ suf)
    else (f.joinArgs cs "and" apos).map (fun j => msg ++ " Choose from " ++ j ++ "." ++ suf)
  | none => some (msg ++ suf)

/-- A plain (non-VT) Python exception: its class name and positional
arguments, restricted to string arguments as used throughout the library. -/
structure PyExc where
  typeName : String
  args : List String
deriving DecidableEq

/-- Python `repr` of the strings appearing in this development (no embedded
quotes or escapes). -/
def pyReprStr (s : String) : String := apos ++ s ++ apos

/-- Python `BaseException.__str__`: `''` for no argument, the argument for
one, the `repr` of the argument tuple otherwise. -/
def pyBaseExcStr (args : List String) : String :=
  match args with
  | [] => ""
  | [a] => a
  | as => "(" ++ strJoin ", " (as.map pyReprStr) ++ ")"

/-- Embedding of a `VTException` (`exceptions.py`): positional arguments and
the `__cause__` installed by a `raise ... from ...` chain (the `kwargs`
metadata mapping does not enter any claim and is omitted). -/
structure VTException where
  args : List String
  cause : Option PyExc
deriving DecidableEq

/-- Embedding of `VTException.__str__`. -/
def VTException.str (e : VTException) : String :=
  match e.cause with
  | some c =>
    if e.args = [] then
      if c.args = [] then c.typeName
      else c.typeName ++ ": " ++ pyBaseExcStr c.args
    else c.typeName ++ ": " ++ pyBaseExcStr e.args
  | none => if e.args = [] then "" else pyBaseExcStr e.args

/-- Embedding of `subprocess.CalledProcessError`: the failed command, its
return code and the captured output/stderr. -/
structure CalledProcessError where
  returncode : Int
  cmd : String
  output : Option String
  stderr : Option String
deriving DecidableEq

/-- The possible values of `__cause__` on a `VTCmdException`: a
`CalledProcessError`, or some other exception (the mismatched-chaining
case). -/
inductive CmdCause where
  | cpe (c : CalledProcessError)
  | other (e : PyExc)
deriving DecidableEq

/-- Embedding of a constructed `VTCmdException`: positional arguments, the
wrapped `called_process_error`, the computed `exit_code` and the `__cause__`
installed (or not) by a `raise ... from ...` chain. -/
structure VTCmdException where
  args : List String
  called_process_error : CalledProcessError
  exit_code : Int
  chainedCause : Option CmdCause
deriving DecidableEq

/-- Modelled from the spec: `fallback_on_none_strict` is imported from the
external `vt.utils.commons` library, which is not part of this repository.
The spec says the exit code "defaults to the wrapped failure's return code
unless explicitly overridden", i.e. the first argument is used when present
and the fallback otherwise. -/
def fallback_on_none_strict (x : Option Int) (fallback : Int) : Int :=
  match x with
  | some v => v
  | none => fallback

/-- Embedding of `VTCmdException.__init__`: the exit code passed to the
superclass is `fallback_on_none_strict(exit_code, called_process_error.returncode)`.
The `chained` argument records the `__cause__` later installed by the
`raise ... from ...` at the raise site (`None` when no `from` clause is used). -/
def VTCmdException.make (args : List String) (cpe : CalledProcessError)
    (exitCode : Option Int) (chained : Option CmdCause) : VTCmdException :=
  { args := args
    called_process_error := cpe
    exit_code := fallback_on_none_strict exitCode cpe.returncode
    chainedCause := chained }

/-- Python `repr` of a class object, as interpolated by
`f"{type(self.__cause__)}"`. -/
def pyTypeRepr (name : String) : String := "<class " ++ apos ++ name ++ apos ++ ">"

/-- Embedding of the `VTCmdException.cause` property: a set `__cause__` is
returned only if it is a `CalledProcessError` (otherwise `TypeError` is
raised, embedded as `.error`); an unset `__cause__` falls back to the
wrapped `called_process_error` value. -/
def VTCmdException.cause (e : VTCmdException) : Except PyExc CalledProcessError :=
  match e.chainedCause with
  | some (.cpe c) => .ok c
  | some (.other o) =>
    .error ⟨"TypeError",
      ["Expected cause to be CalledProcessError, got " ++ pyTypeRepr o.typeName ++ "."]⟩
  | none => .ok e.called_process_error

/-- The universe of Python runtime values the validation helpers are called
on: scalars and the iterable containers named by `require_iterable`'s
overloads (`range` is kept as its list of integers). -/
inductive PyVal where
  | none
  | bool (b : Bool)
  | int (n : Int)
  | str (s : String)
  | list (xs : List PyVal)
  | tuple (xs : List PyVal)
  | set (xs : List PyVal)
  | deque (xs : List PyVal)
  | range (xs : List Int)

/-- The Python types appearing as `val_type` / `enforce` / `item_type`
arguments. -/
inductive PyType where
  | noneType | bool | int | str | list | tuple | set | deque | range
deriving DecidableEq

/-- `__name__` of the type. -/
def PyType.name : PyType → String
  | .noneType => "NoneType"
  | .bool => "bool"
  | .int => "int"
  | .str => "str"
  | .list => "list"
  | .tuple => "tuple"
  | .set => "set"
  | .deque => "deque"
  | .range => "range"

/-- Python `isinstance` on this universe.  `bool` is a subclass of `int`,
so `isinstance(True, int)` holds. -/
def isinstance : PyVal → PyType → Bool
  | .none, .noneType => true
  | .bool _, .bool => true
  | .bool _, .int => true
  | .int _, .int => true
  | .str _, .str => true
  | .list _, .list => true
  | .tuple _, .tuple => true
  | .set _, .set => true
  | .deque _, .deque => true
  | .range _, .range => true
  | _, _ => false

/-- `isinstance(value, Iterable)`: the containers and `str` are iterable,
the scalars are not. -/
def PyVal.isIterable : PyVal → Bool
  | .str _ | .list _ | .tuple _ | .set _ | .deque _ | .range _ => true
  | _ => false

/-- The elements an iterable yields (a string yields its characters). -/
def pyElements : PyVal → List PyVal
  | .list xs | .tuple xs | .set xs | .deque xs => xs
  | .range xs => xs.map PyVal.int
  | .str s => s.data.map (fun c => PyVal.str (String.singleton c))
  | _ => []

/-- The `VTExitingException` raised by the validation helpers: its class,
message arguments, exit code and the `TypeError` attached as `__cause__`
just before raising. -/
structure RaisedVTExc where
  excClass : String
  args : List String
  exit_code : Int
  cause : Option PyExc
deriving DecidableEq

/-- The shared raise routine of `require_type` / `require_iterable`: build a
`TypeError` cause, build the configured exception from the message and exit
code, chain the two and raise.  (`raise_from_caller` only rewrites the
traceback frame, which does not change the raised value and is not
embedded.) -/
def mkRaised (excClass : String) (exitCode : Int) (msg : String) : RaisedVTExc :=
  ⟨excClass, [msg], exitCode, some ⟨"TypeError", [msg]⟩⟩

/-- Embedding of `require_type` (`utils.py`): silent success on an
`isinstance` match, otherwise raise the configured exception with message
`prefix + "'" + var_name + "' must be of type " + typename + suffix`,
chained to a `TypeError` with the same message. -/
def require_type (val : PyVal) (varName : String) (valType : PyType)
    (excClass : String) (exitCode : Int) (pre suf : String) :
    Except RaisedVTExc Unit :=
  if isinstance val valType then .ok ()
  else
    .error (mkRaised excClass exitCode
      (pre ++ apos ++ varName ++ apos ++ " must be of type " ++ valType.name ++ suf))

/-- `require_iterable`'s raise: the same construct-and-raise routine as
`require_type`, building the message from prefix, quoted label, middle and
suffix. -/
def raiseMsg (excClass : String) (exitCode : Int) (pre varName mid suf : String) :
    Except RaisedVTExc Bool :=
  .error (mkRaised excClass exitCode (pre ++ apos ++ varName ++ apos ++ mid ++ suf))

/-- The checks `require_iterable` performs after the iterable test has
passed: concrete container type, emptiness/non-emptiness, element types. -/
def require_iterable_checks (val : PyVal) (varName : String) (itemType : Option PyType)
    (enforce : Option PyType) (excClass : String) (exitCode : Int)
    (pre suf : String) (empty : Option Bool) : Except RaisedVTExc Bool :=
  let iterableTypeStr := (enforce.map PyType.name).getD "iterable"
  let afterEnforce : Except RaisedVTExc Bool :=
    if empty == some true && !(pyElements val).isEmpty then
      raiseMsg excClass exitCode pre varName " must be empty" suf
    else if empty == some false && (pyElements val).isEmpty then
      raiseMsg excClass exitCode pre varName " must not be empty" suf
    else
      match itemType with
      | some t =>
        match (pyElements val).find? (fun v => !isinstance v t) with
        | some _ =>
          raiseMsg excClass exitCode pre varName
            (" must be a " ++ iterableTypeStr ++ " of " ++ t.name) suf
        | none => .ok true
      | none => .ok true
  match enforce with
  | some enf =>
    if !isinstance val enf then
      raiseMsg excClass exitCode pre varName (" must be of type " ++ enf.name) suf
    else afterEnforce
  | none => afterEnforce

/-- Embedding of `require_iterable` (`utils.py`): sequential checks, each
raising through the same routine as `require_type`; returns `True` when all
requested checks pass. -/
def require_iterable (val : PyVal) (varName : String) (itemType : Option PyType)
    (enforce : Option PyType) (excClass : String) (exitCode : Int)
    (pre suf : String) (empty : Option Bool) : Except RaisedVTExc Bool :=
  if isinstance val .str || !val.isIterable then
    raiseMsg excClass exitCode pre varName " must be an iterable (not a string)" suf
  else require_iterable_checks val varName itemType enforce excClass exitCode pre suf empty

/-- C1: the spec says a join with a conjunction key absent from the
conjunction mapping must fail with a configuration error, and the source's
own docstring on `_join_args` promises `KeyError` in that case; the code
instead calls `dict.get` with the key itself as the default and returns a
string.  Evaluated at the failing input: the default formatter's mapping
has no key `"und"`, yet the join returns `"a und b"` without failing. -/
theorem joinArgs_missing_key_still_returns :
    ErrorMsgFormer.conjunctions.lookup "und" = none ∧
      ErrorMsgFormer.joinArgs ["a", "b"] "und" "" = some "a und b" :=
  ⟨rfl, rfl⟩

/-- C10: a conjunction key absent from the mapping does not make the join
fail: the key string itself is used as the conjunction word in the returned
message. -/
theorem joinArgs_missing_key_uses_key (f : ErrorMessageFormer) (k : String)
    (h : f.conjunctions.lookup k = none) :
    (∀ a b : String, f.joinArgs [a, b] k "" = some (a ++ " " ++ k ++ " " ++ b)) ∧
    (∀ (a b c : String) (rest : List String),
      f.joinArgs (a :: b :: c :: rest) k "" =
        some (strJoin ", " ((a :: b :: c :: rest).dropLast)
          ++ (if f.use_oxford_comma then "," else "") ++ " " ++ k ++ " "
          ++ (a :: b :: c :: rest).getLast (List.cons_ne_nil a (b :: c :: rest)))) := by
  constructor
  · intro a b
    simp [ErrorMessageFormer.joinArgs, h]
  · intro a b c rest
    simp [ErrorMessageFormer.joinArgs, h]

/-- C10 witness: joining `["a", "b"]` with the unknown key `"und"` on the
default formatter yields `"a und b"`. -/
theorem joinArgs_missing_key_uses_key_witness :
    ErrorMsgFormer.joinArgs ["a", "b"] "und" "" = some "a und b" :=
  ((joinArgs_missing_key_uses_key ErrorMsgFormer "und" rfl).1 "a" "b").trans (by decide)

/-- C6: with a conjunction key present in the mapping, two labels are joined
as `"{a} {conj} {b}"` (no dependence on the Oxford flag), and three or more
labels are joined as the first `n-1` labels separated by `", "`, then a
comma exactly when the Oxford flag is on, then the conjunction and the last
label. -/
theorem joinArgs_present_key_shape (f : ErrorMessageFormer) (k conj : String)
    (h : f.conjunctions.lookup k = some conj) :
    (∀ a b : String, f.joinArgs [a, b] k "" = some (a ++ " " ++ conj ++ " " ++ b)) ∧
    (∀ (a b c : String) (rest : List String),
      f.joinArgs (a :: b :: c :: rest) k "" =
        some (strJoin ", " ((a :: b :: c :: rest).dropLast)
          ++ (if f.use_oxford_comma then "," else "") ++ " " ++ conj ++ " "
          ++ (a :: b :: c :: rest).getLast (List.cons_ne_nil a (b :: c :: rest)))) := by
  constructor
  · intro a b
    simp [ErrorMessageFormer.joinArgs, h]
  · intro a b c rest
    simp [ErrorMessageFormer.joinArgs, h]

/-- C6 witness: two labels are unaffected by the Oxford flag, three labels
get the extra comma exactly when the flag is on. -/
theorem joinArgs_present_key_shape_witness :
    ErrorMsgFormer.joinArgs ["a", "b"] "and" "" = some "a and b" ∧
    (ErrorMessageFormer.mk "en" true [("and", "and"), ("or", "or")]).joinArgs
        ["a", "b"] "and" "" = some "a and b" ∧
    ErrorMsgFormer.joinArgs ["a", "b", "c"] "and" "" = some "a, b and c" ∧
    (ErrorMessageFormer.mk "en" true [("and", "and"), ("or", "or")]).joinArgs
        ["a", "b", "c"] "and" "" = some "a, b, and c" := by
  refine ⟨?_, ?_, ?_, ?_⟩
  · exact ((joinArgs_present_key_shape ErrorMsgFormer "and" "and" rfl).1 "a" "b").trans
      (by decide)
  · exact ((joinArgs_present_key_shape
      (ErrorMessageFormer.mk "en" true [("and", "and"), ("or", "or")]) "and" "and" rfl).1
      "a" "b").trans (by decide)
  · exact ((joinArgs_present_key_shape ErrorMsgFormer "and" "and" rfl).2 "a" "b" "c" []).trans
      (by decide)
  · exact ((joinArgs_present_key_shape
      (ErrorMessageFormer.mk "en" true [("and", "and"), ("or", "or")]) "and" "and" rfl).2
      "a" "b" "c" []).trans (by decide)

/-- C2: rendering of a `VTException`: with no direct message but a cause it
renders `"<cause-type>: <cause-message>"` (just `"<cause-type>"` when the
cause has no message); with a direct message and no cause it renders the
message unchanged; with both it renders `"<cause-type>: <direct-message>"`,
dropping the cause's own message. -/
theorem vtException_str_rendering (e : VTException) :
    (∀ c : PyExc, e.args = [] → e.cause = some c →
      e.str = if c.args = [] then c.typeName
        else c.typeName ++ ": " ++ pyBaseExcStr c.args) ∧
    (∀ m : String, e.args = [m] → e.cause = none → e.str = m) ∧
    (∀ (m : String) (c : PyExc), e.args = [m] → e.cause = some c →
      e.str = c.typeName ++ ": " ++ m) := by
  refine ⟨?_, ?_, ?_⟩
  · intro c h1 h2
    simp [VTException.str, h1, h2]
  · intro m h1 h2
    simp [VTException.str, pyBaseExcStr, h1, h2]
  · intro m c h1 h2
    simp [VTException.str, pyBaseExcStr, h1, h2]

/-- C2 witness: the three rendering cases (and the no-cause-message
sub-case) at concrete exceptions. -/
theorem vtException_str_rendering_witness :
    VTException.str ⟨[], some ⟨"ValueError", ["cause message."]⟩⟩ =
      "ValueError: cause message." ∧
    VTException.str ⟨[], some ⟨"ValueError", []⟩⟩ = "ValueError" ∧
    VTException.str ⟨["main message."], none⟩ = "main message." ∧
    VTException.str ⟨["main message."], some ⟨"ValueError", ["cause message."]⟩⟩ =
      "ValueError: main message." := by
  refine ⟨?_, ?_, ?_, ?_⟩
  · exact ((vtException_str_rendering _).1 _ rfl rfl).trans (by decide)
  · exact ((vtException_str_rendering _).1 _ rfl rfl).trans (by decide)
  · exact (vtException_str_rendering _).2.1 _ rfl rfl
  · exact ((vtException_str_rendering
      ⟨["main message."], some ⟨"ValueError", ["cause message."]⟩⟩).2.2
      "main message." ⟨"ValueError", ["cause message."]⟩ rfl rfl).trans (by decide)

/-- C9: a `VTException` with no message arguments and no cause renders as
the empty string, the fall-through `return ''` outside the three documented
cases. -/
theorem vtException_str_no_args_no_cause (e : VTException)
    (h1 : e.args = []) (h2 : e.cause = none) : e.str = "" := by
  simp [VTException.str, h1, h2]

/-- C9 witness: the messageless, causeless exception renders as `""`. -/
theorem vtException_str_no_args_no_cause_witness :
    VTException.str ⟨[], none⟩ = "" :=
  vtException_str_no_args_no_cause ⟨[], none⟩ rfl rfl

/-- C3: `require_type` returns silently when the value is an instance of the
expected type, and otherwise raises the configured exception class with the
configured exit code, message
`prefix + "'" + label + "' must be of type " + typename + suffix`, and a
non-null `TypeError` cause carrying the same message. -/
theorem require_type_spec (val : PyVal) (varName : String) (valType : PyType)
    (excClass : String) (exitCode : Int) (pre suf : String) :
    (isinstance val valType = true →
      require_type val varName valType excClass exitCode pre suf = .ok ()) ∧
    (isinstance val valType = false →
      require_type val varName valType excClass exitCode pre suf =
        .error ⟨excClass,
          [pre ++ apos ++ varName ++ apos ++ " must be of type " ++ valType.name ++ suf],
          exitCode,
          some ⟨"TypeError",
            [pre ++ apos ++ varName ++ apos ++ " must be of type " ++ valType.name ++ suf]⟩⟩) := by
  constructor
  · intro h
    simp [require_type, h]
  · intro h
    simp [require_type, mkRaised, h]

/-- C3 witness: `require_type(123, "count", int)` succeeds;
`require_type("abc", "count", int)` raises with the documented message and
`TypeError` cause. -/
theorem require_type_spec_witness :
    require_type (.int 123) "count" .int "VTExitingException" 65 "" "" = .ok () ∧
    require_type (.str "abc") "count" .int "VTExitingException" 65 "" "" =
      .error ⟨"VTExitingException", [apos ++ "count" ++ apos ++ " must be of type int"],
        65, some ⟨"TypeError", [apos ++ "count" ++ apos ++ " must be of type int"]⟩⟩ := by
  constructor
  · exact (require_type_spec (.int 123) "count" .int "VTExitingException" 65 "" "").1 rfl
  · exact (require_type_spec (.str "abc") "count" .int "VTExitingException" 65 "" "").2 rfl

/-- C4: a `VTCmdException` constructed without an explicit exit code takes
the wrapped `CalledProcessError`'s return code as its `exit_code`; with an
explicit code it takes that code. -/
theorem vtCmdException_exit_code_spec (args : List String) (cpe : CalledProcessError)
    (c : Int) (chained : Option CmdCause) :
    (VTCmdException.make args cpe none chained).exit_code = cpe.returncode ∧
    (VTCmdException.make args cpe (some c) chained).exit_code = c :=
  ⟨rfl, rfl⟩

/-- C5: the `cause` accessor returns a chained `__cause__` that is a
`CalledProcessError`, raises `TypeError` for a chained `__cause__` of any
other type, and falls back to the wrapped `called_process_error` value,
without any type check, when no `__cause__` is set. -/
theorem vtCmdException_cause_spec (e : VTCmdException) :
    (∀ c : CalledProcessError, e.chainedCause = some (.cpe c) → e.cause = .ok c) ∧
    (∀ o : PyExc, e.chainedCause = some (.other o) →
      e.cause = .error ⟨"TypeError",
        ["Expected cause to be CalledProcessError, got " ++ pyTypeRepr o.typeName ++ "."]⟩) ∧
    (e.chainedCause = none → e.cause = .ok e.called_process_error) := by
  refine ⟨?_, ?_, ?_⟩
  · intro c h
    simp [VTCmdException.cause, h]
  · intro o h
    simp [VTCmdException.cause, h]
  · intro h
    simp [VTCmdException.cause, h]

/-- C5 witness: the three accessor behaviours at concrete exceptions. -/
theorem vtCmdException_cause_spec_witness :
    (VTCmdException.make ["m"] ⟨3, "whoami", none, none⟩ none
        (some (.cpe ⟨3, "whoami", none, none⟩))).cause = .ok ⟨3, "whoami", none, none⟩ ∧
    (VTCmdException.make ["m"] ⟨1, "ls", none, none⟩ none
        (some (.other ⟨"ValueError", ["not a subprocess error"]⟩))).cause =
      .error ⟨"TypeError",
        ["Expected cause to be CalledProcessError, got " ++ pyTypeRepr "ValueError" ++ "."]⟩ ∧
    (VTCmdException.make ["m"] ⟨1, "ls", none, none⟩ none none).cause =
      .ok ⟨1, "ls", none, none⟩ := by
  refine ⟨?_, ?_, ?_⟩
  · exact (vtCmdException_cause_spec
      (VTCmdException.make ["m"] ⟨3, "whoami", none, none⟩ none
        (some (.cpe ⟨3, "whoami", none, none⟩)))).1 ⟨3, "whoami", none, none⟩ rfl
  · exact (vtCmdException_cause_spec
      (VTCmdException.make ["m"] ⟨1, "ls", none, none⟩ none
        (some (.other ⟨"ValueError", ["not a subprocess error"]⟩)))).2.1
      ⟨"ValueError", ["not a subprocess error"]⟩ rfl
  · exact (vtCmdException_cause_spec
      (VTCmdException.make ["m"] ⟨1, "ls", none, none⟩ none none)).2.2 rfl

/-- Taking few enough characters of an appended string only sees the left
part. -/
theorem take_data_append (a y : String) (n : Nat) (hn : n ≤ a.data.length) :
    ((a ++ y) : String).data.take n = a.data.take n := by
  rw [String.data_append]
  exact List.take_append_of_le_length hn

/-- An appended string is at least as long as its left part. -/
theorem le_length_data_append (a y : String) (n : Nat) (hn : n ≤ a.data.length) :
    n ≤ ((a ++ y) : String).data.length := by
  rw [String.data_append, List.length_append]
  omega

/-- Two validator messages built from the same prefix, quoted label and
suffix differ whenever their middle parts differ within their first `n`
characters. -/
theorem pyMsg_ne (p v s m1 m2 : String) (n : Nat)
    (l1 : n ≤ m1.data.length) (l2 : n ≤ m2.data.length)
    (hne : m1.data.take n ≠ m2.data.take n) :
    p ++ apos ++ v ++ apos ++ m1 ++ s ≠ p ++ apos ++ v ++ apos ++ m2 ++ s := by
  intro h
  have hd := congrArg String.data h
  simp only [String.data_append, List.append_assoc] at hd
  have h3 := List.append_cancel_left (List.append_cancel_left
    (List.append_cancel_left (List.append_cancel_left hd)))
  have h4 := congrArg (List.take n) h3
  rw [List.take_append_of_le_length l1, List.take_append_of_le_length l2] at h4
  exact hne h4

/-- Any `.ok` result of the post-iterable checks is `.ok true`. -/
theorem require_iterable_checks_ok (val : PyVal) (varName : String)
    (itemType enforce : Option PyType) (excClass : String) (exitCode : Int)
    (pre suf : String) (empty : Option Bool) (b : Bool)
    (h : require_iterable_checks val varName itemType enforce excClass exitCode
      pre suf empty = .ok b) : b = true := by
  simp only [require_iterable_checks] at h
  repeat' split at h
  all_goals simp_all [raiseMsg, mkRaised]

/-- Any error of the post-iterable checks carries a message different from
the not-an-iterable message. -/
theorem require_iterable_checks_error_args (val : PyVal) (varName : String)
    (itemType enforce : Option PyType) (excClass : String) (exitCode : Int)
    (pre suf : String) (empty : Option Bool) (exc : RaisedVTExc)
    (h : require_iterable_checks val varName itemType enforce excClass exitCode
      pre suf empty = .error exc) :
    exc.args ≠
      [pre ++ apos ++ varName ++ apos ++ " must be an iterable (not a string)" ++ suf] := by
  simp only [require_iterable_checks] at h
  repeat' split at h
  all_goals try simp only [raiseMsg, Option.map_some', Option.map_none', Option.getD_some,
    Option.getD_none, Except.error.injEq] at h
  all_goals first
    | exact Except.noConfusion h
    | (subst h; intro heq; simp only [mkRaised] at heq; injection heq with heq1 heq2)
  · exact absurd heq1 (pyMsg_ne _ _ _ _ _ 10
      (le_length_data_append (" must be of type ") _ 10 (by decide)) (by decide)
      (by rw [take_data_append (" must be of type ") _ 10 (by decide)]; decide))
  · exact absurd heq1 (pyMsg_ne _ _ _ _ _ 10 (by decide) (by decide) (by decide))
  · exact absurd heq1 (pyMsg_ne _ _ _ _ _ 7 (by decide) (by decide) (by decide))
  · exact absurd heq1 (pyMsg_ne _ _ _ _ _ 11
      (le_length_data_append _ _ 11 (le_length_data_append _ _ 11
        (le_length_data_append (" must be a ") _ 11 (by decide))))
      (by decide)
      (by
        rw [take_data_append _ _ 11 (le_length_data_append _ _ 11
            (le_length_data_append (" must be a ") _ 11 (by decide))),
          take_data_append _ _ 11 (le_length_data_append (" must be a ") _ 11 (by decide)),
          take_data_append (" must be a ") _ 11 (by decide)]
        decide))
  · exact absurd heq1 (pyMsg_ne _ _ _ _ _ 10 (by decide) (by decide) (by decide))
  · exact absurd heq1 (pyMsg_ne _ _ _ _ _ 7 (by decide) (by decide) (by decide))
  · exact absurd heq1 (pyMsg_ne _ _ _ _ _ 11
      (le_length_data_append _ _ 11 (le_length_data_append _ _ 11
        (le_length_data_append (" must be a ") _ 11 (by decide))))
      (by decide)
      (by
        rw [take_data_append _ _ 11 (le_length_data_append _ _ 11
            (le_length_data_append (" must be a ") _ 11 (by decide))),
          take_data_append _ _ 11 (le_length_data_append (" must be a ") _ 11 (by decide)),
          take_data_append (" must be a ") _ 11 (by decide)]
        decide))

/-- C8: `require_iterable` raises with message
`"'{label}' must be an iterable (not a string)"` (with prefix and suffix
applied) exactly when the value is a text string or is not an iterable at
all, and every silent (`.ok`) result it returns is `True`. -/
theorem require_iterable_spec (val : PyVal) (varName : String)
    (itemType enforce : Option PyType) (excClass : String) (exitCode : Int)
    (pre suf : String) (empty : Option Bool) :
    ((∃ exc : RaisedVTExc,
        require_iterable val varName itemType enforce excClass exitCode pre suf empty =
          .error exc ∧
        exc.args =
          [pre ++ apos ++ varName ++ apos ++ " must be an iterable (not a string)" ++ suf]) ↔
      (isinstance val .str = true ∨ val.isIterable = false)) ∧
    (∀ b : Bool,
      require_iterable val varName itemType enforce excClass exitCode pre suf empty =
        .ok b → b = true) := by
  by_cases hc : (isinstance val PyType.str || !val.isIterable) = true
  · have hr : require_iterable val varName itemType enforce excClass exitCode pre suf empty =
        .error (mkRaised excClass exitCode
          (pre ++ apos ++ varName ++ apos ++ " must be an iterable (not a string)" ++ suf)) := by
      simp [require_iterable, raiseMsg, hc]
    constructor
    · constructor
      · intro _
        rcases Bool.or_eq_true_iff.mp hc with hA | hB
        · exact Or.inl hA
        · exact Or.inr (by simpa using hB)
      · intro _
        exact ⟨_, hr, rfl⟩
    · intro b hb
      rw [hr] at hb
      exact Except.noConfusion hb
  · have hc' := hc
    rw [Bool.or_eq_true_iff] at hc'
    push_neg at hc'
    obtain ⟨h1, h2⟩ := hc'
    have h1' : isinstance val PyType.str = false := by
      cases hA : isinstance val PyType.str
      · rfl
      · exact absurd hA h1
    have h2' : val.isIterable = true := by
      cases hB : val.isIterable
      · exact absurd (by simp [hB]) h2
      · rfl
    have hr : require_iterable val varName itemType enforce excClass exitCode pre suf empty =
        require_iterable_checks val varName itemType enforce excClass exitCode pre suf empty := by
      simp [require_iterable, h1', h2']
    constructor
    · constructor
      · rintro ⟨exc, he, hargs⟩
        rw [hr] at he
        exact absurd hargs
          (require_iterable_checks_error_args _ _ _ _ _ _ _ _ _ _ he)
      · intro hdisj
        rcases hdisj with hA | hB
        · rw [h1'] at hA
          cases hA
        · rw [h2'] at hB
          cases hB
    · intro b hb
      rw [hr] at hb
      exact require_iterable_checks_ok _ _ _ _ _ _ _ _ _ _ hb

/-- C8 witness: a string and an `int` are rejected with the documented
not-an-iterable message; a non-empty list of ints with every check
requested passes and returns `True`. -/
theorem require_iterable_spec_witness :
    (∃ exc : RaisedVTExc,
        require_iterable (.str "abc") "xs" none none "VTExitingException" 65 "" "" none =
          .error exc ∧
        exc.args =
          ["" ++ apos ++ "xs" ++ apos ++ " must be an iterable (not a string)" ++ ""]) ∧
    (∃ exc : RaisedVTExc,
        require_iterable (.int 123) "xs" none none "VTExitingException" 65 "" "" none =
          .error exc ∧
        exc.args =
          ["" ++ apos ++ "xs" ++ apos ++ " must be an iterable (not a string)" ++ ""]) ∧
    require_iterable (.list [.int 1, .int 2]) "xs" (some .int) (some .list)
      "VTExitingException" 65 "" "" (some false) = .ok true := by
  refine ⟨?_, ?_, ?_⟩
  · exact (require_iterable_spec (.str "abc") "xs" none none
      "VTExitingException" 65 "" "" none).1.mpr (Or.inl rfl)
  · exact (require_iterable_spec (.int 123) "xs" none none
      "VTExitingException" 65 "" "" none).1.mpr (Or.inr rfl)
  · rfl

/-- The number of positions of `l` at which the pattern `p` starts an
occurrence (overlapping occurrences all counted). -/
def countSub (p : List Char) : List Char → Nat
  | [] => 0
  | c :: tl => (if p.isPrefixOf (c :: tl) then 1 else 0) + countSub p tl

/-- `List.isPrefixOf` on characters, as an existential equation. -/
theorem isPre_iff (l₁ l₂ : List Char) : l₁.isPrefixOf l₂ = true ↔ ∃ t, l₁ ++ t = l₂ := by
  induction l₁ generalizing l₂ with
  | nil => simp [List.isPrefixOf]
  | cons a as ih =>
    cases l₂ with
    | nil => simp [List.isPrefixOf]
    | cons b bs =>
      simp [List.isPrefixOf, ih, Bool.and_eq_true, beq_iff_eq, List.cons.injEq,
        exists_and_left]

/-- Negative form of `isPre_iff`. -/
theorem isPre_eq_false (l₁ l₂ : List Char) (h : ¬ ∃ t, l₁ ++ t = l₂) :
    l₁.isPrefixOf l₂ = false := by
  rw [Bool.eq_false_iff]
  rw [ne_eq, isPre_iff]
  exact h

/-- A position holding a non-space character starts no occurrence of a
space-led pattern. -/
theorem countSub_cons_of_ne (C : List Char) (x : Char) (l : List Char) (hx : x ≠ ' ') :
    countSub (' ' :: C) (x :: l) = countSub (' ' :: C) l := by
  have hf : (' ' :: C).isPrefixOf (x :: l) = false := by
    apply isPre_eq_false
    rintro ⟨t, ht⟩
    rw [List.cons_append] at ht
    injection ht with h1 _
    exact hx h1.symm
  simp [countSub, hf]

/-- A space-free block contributes no occurrence of a space-led pattern. -/
theorem countSub_append_spacefree (C u b : List Char) (hu : ∀ ch ∈ u, ch ≠ ' ') :
    countSub (' ' :: C) (u ++ b) = countSub (' ' :: C) b := by
  induction u with
  | nil => simp
  | cons x xs ih =>
    rw [List.cons_append, countSub_cons_of_ne C x _ (hu x (by simp))]
    exact ih (fun ch hch => hu ch (by simp [hch]))

/-- The region `" {conj} {last}"` contains exactly one occurrence of the
padded conjunction when the conjunction and the last label are
space-free. -/
theorem countSub_hit_once (C lastd : List Char) (hC : ∀ ch ∈ C, ch ≠ ' ')
    (hl : ∀ ch ∈ lastd, ch ≠ ' ') :
    countSub (' ' :: (C ++ [' '])) (' ' :: (C ++ ' ' :: lastd)) = 1 := by
  have h1 : (' ' :: (C ++ [' '])).isPrefixOf (' ' :: (C ++ ' ' :: lastd)) = true :=
    (isPre_iff _ _).mpr ⟨lastd, by simp⟩
  have h2 : countSub (' ' :: (C ++ [' '])) (C ++ ' ' :: lastd) =
      countSub (' ' :: (C ++ [' '])) (' ' :: lastd) :=
    countSub_append_spacefree _ C _ hC
  have h3 : (' ' :: (C ++ [' '])).isPrefixOf (' ' :: lastd) = false := by
    apply isPre_eq_false
    rintro ⟨t, ht⟩
    rw [List.cons_append] at ht
    injection ht with _ h4
    have hsp : ' ' ∈ lastd := by
      rw [← h4]
      simp
    exact hl ' ' hsp rfl
  have h5 : countSub (' ' :: (C ++ [' '])) lastd = 0 := by
    have h6 := countSub_append_spacefree (C ++ [' ']) lastd [] hl
    simpa [countSub] using h6
  simp [countSub, h1, h2, h3, h5]

/-- A comma-free pattern padded with a final space never matches at the
start of a space-free block followed by a comma. -/
theorem np_comma : ∀ (C L r : List Char), (∀ ch ∈ C, ch ≠ ',') →
    (∀ ch ∈ L, ch ≠ ' ') → ¬ ∃ t, (C ++ [' ']) ++ t = L ++ ',' :: r := by
  intro C
  induction C with
  | nil =>
    rintro L r _ hL ⟨t, ht⟩
    cases L with
    | nil =>
      rw [List.nil_append, List.nil_append, List.cons_append] at ht
      injection ht with h1 _
      cases h1
    | cons x xs =>
      rw [List.nil_append, List.cons_append, List.cons_append] at ht
      injection ht with h1 _
      exact hL x (by simp) h1.symm
  | cons c cs ih =>
    rintro L r hC hL ⟨t, ht⟩
    cases L with
    | nil =>
      rw [List.cons_append, List.cons_append, List.nil_append] at ht
      injection ht with h1 _
      exact hC c (by simp) h1
    | cons x xs =>
      rw [List.cons_append, List.cons_append, List.cons_append] at ht
      injection ht with h1 h2
      exact ih xs r (fun ch hch => hC ch (by simp [hch]))
        (fun ch hch => hL ch (by simp [hch])) ⟨t, h2⟩

/-- A space-free pattern padded with a final space never matches at the
start of a different space-free block followed by a space. -/
theorem np_space : ∀ (C L r : List Char), (∀ ch ∈ C, ch ≠ ' ') →
    (∀ ch ∈ L, ch ≠ ' ') → C ≠ L → ¬ ∃ t, (C ++ [' ']) ++ t = L ++ ' ' :: r := by
  intro C
  induction C with
  | nil =>
    rintro L r _ hL hne ⟨t, ht⟩
    cases L with
    | nil => exact hne rfl
    | cons x xs =>
      rw [List.nil_append, List.cons_append, List.cons_append] at ht
      injection ht with h1 _
      exact hL x (by simp) h1.symm
  | cons c cs ih =>
    rintro L r hC hL hne ⟨t, ht⟩
    cases L with
    | nil =>
      rw [List.cons_append, List.cons_append, List.nil_append] at ht
      injection ht with h1 _
      exact hC c (by simp) h1
    | cons x xs =>
      rw [List.cons_append, List.cons_append, List.cons_append] at ht
      injection ht with h1 h2
      exact ih xs r (fun ch hch => hC ch (by simp [hch]))
        (fun ch hch => hL ch (by simp [hch]))
        (fun hh => hne (by rw [h1, hh])) ⟨t, h2⟩

/-- The padded conjunction never matches at a position where a label of the
joined list starts, provided labels are comma- and space-free, differ from
the conjunction, and the join is followed by a comma or a space. -/
theorem np_strJoin (ls : List String) (C : List Char) (tail : List Char)
    (hls : ls ≠ [])
    (hlab : ∀ l ∈ ls, (∀ ch ∈ l.data, ch ≠ ',' ∧ ch ≠ ' ') ∧ l.data ≠ C)
    (hCchars : ∀ ch ∈ C, ch ≠ ',' ∧ ch ≠ ' ')
    (htail : tail.head? = some ',' ∨ tail.head? = some ' ') :
    ¬ ∃ t, (C ++ [' ']) ++ t = (strJoin ", " ls).data ++ tail := by
  cases ls with
  | nil => exact absurd rfl hls
  | cons b ls' =>
    cases ls' with
    | nil =>
      have hb := hlab b (by simp)
      cases tail with
      | nil => simp at htail
      | cons th tr =>
        simp only [List.head?] at htail
        rcases htail with h | h
        · injection h with h
          subst h
          exact np_comma C b.data tr (fun ch hch => (hCchars ch hch).1)
            (fun ch hch => (hb.1 ch hch).2)
        · injection h with h
          subst h
          exact np_space C b.data tr (fun ch hch => (hCchars ch hch).2)
            (fun ch hch => (hb.1 ch hch).2) (fun hh => hb.2 hh.symm)
    | cons c t' =>
      have hb := hlab b (by simp)
      have hshape : (strJoin ", " (b :: c :: t')).data ++ tail =
          b.data ++ ',' :: ' ' :: ((strJoin ", " (c :: t')).data ++ tail) := by
        simp [strJoin, String.data_append, List.append_assoc,
          (show (", " : String).data = [',', ' '] by decide)]
      rw [hshape]
      exact np_comma C b.data _ (fun ch hch => (hCchars ch hch).1)
        (fun ch hch => (hb.1 ch hch).2)

/-- Traversing the joined labels adds no occurrence of the padded
conjunction: the count over the join plus a trailing region equals the
count over the trailing region alone. -/
theorem countSub_strJoin (C : List Char) (hCchars : ∀ ch ∈ C, ch ≠ ',' ∧ ch ≠ ' ') :
    ∀ (ls : List String) (tail : List Char), ls ≠ [] →
    (∀ l ∈ ls, (∀ ch ∈ l.data, ch ≠ ',' ∧ ch ≠ ' ') ∧ l.data ≠ C) →
    (tail.head? = some ',' ∨ tail.head? = some ' ') →
    countSub (' ' :: (C ++ [' '])) ((strJoin ", " ls).data ++ tail) =
      countSub (' ' :: (C ++ [' '])) tail := by
  intro ls
  induction ls with
  | nil => intro tail h; exact absurd rfl h
  | cons b ls' ih =>
    intro tail _ hlab htail
    have hb := hlab b (by simp)
    cases ls' with
    | nil =>
      simp only [strJoin]
      exact countSub_append_spacefree _ _ _ (fun ch hch => (hb.1 ch hch).2)
    | cons c t' =>
      have hshape : (strJoin ", " (b :: c :: t')).data ++ tail =
          b.data ++ (',' :: ' ' :: ((strJoin ", " (c :: t')).data ++ tail)) := by
        simp [strJoin, String.data_append, List.append_assoc,
          (show (", " : String).data = [',', ' '] by decide)]
      rw [hshape]
      rw [countSub_append_spacefree _ _ _ (fun ch hch => (hb.1 ch hch).2)]
      rw [countSub_cons_of_ne _ ',' _ (by decide)]
      have hnp : (' ' :: (C ++ [' '])).isPrefixOf
          (' ' :: ((strJoin ", " (c :: t')).data ++ tail)) = false := by
        apply isPre_eq_false
        rintro ⟨t, ht⟩
        rw [List.cons_append] at ht
        injection ht with _ h2
        exact np_strJoin (c :: t') C tail (by simp)
          (fun l hl => hlab l (by simp [hl])) hCchars htail ⟨t, h2⟩
      have hstep : countSub (' ' :: (C ++ [' ']))
          (' ' :: ((strJoin ", " (c :: t')).data ++ tail)) =
          countSub (' ' :: (C ++ [' '])) ((strJoin ", " (c :: t')).data ++ tail) := by
        simp [countSub, hnp]
      rw [hstep]
      exact ih tail (by simp) (fun l hl => hlab l (by simp [hl])) htail

/-- Comma count of the `", "`-join of comma-free labels. -/
theorem count_comma_strJoin : ∀ (ls : List String), ls ≠ [] →
    (∀ l ∈ ls, ∀ ch ∈ l.data, ch ≠ ',') →
    (strJoin ", " ls).data.count ',' = ls.length - 1 := by
  intro ls
  induction ls with
  | nil => intro h; exact absurd rfl h
  | cons b ls' ih =>
    intro _ hl
    cases ls' with
    | nil =>
      simp only [strJoin, List.length_cons, List.length_nil]
      exact List.count_eq_zero.mpr (fun h => hl b (by simp) ',' h rfl)
    | cons c t' =>
      have hdata : (strJoin ", " (b :: c :: t')).data =
          b.data ++ ',' :: ' ' :: (strJoin ", " (c :: t')).data := by
        simp [strJoin, String.data_append,
          (show (", " : String).data = [',', ' '] by decide)]
      have hb0 : b.data.count ',' = 0 :=
        List.count_eq_zero.mpr (fun h => hl b (by simp) ',' h rfl)
      have hrec := ih (by simp) (fun l hl2 => hl l (by simp [hl2]))
      rw [hdata, List.count_append, hb0, List.count_cons, List.count_cons, hrec]
      simp

/-- C7 counterexample: with the Oxford flag on and a first label containing
the padded conjunction, joining `["x and y", "b", "c"]` with key `"and"`
yields `"x and y, b, and c"`, in which `" and "` occurs twice (not exactly
once before the final label) and which contains two commas, not `n-2 = 1`. -/
theorem joinArgs_counts_cex :
    (ErrorMessageFormer.mk "en" true [("and", "and"), ("or", "or")]).joinArgs
        ["x and y", "b", "c"] "and" "" = some "x and y, b, and c" ∧
    ¬(countSub ((" " ++ "and" ++ " " : String)).data ("x and y, b, and c" : String).data = 1 ∧
      ("x and y, b, and c" : String).data.count ',' = 3 - 2) := by
  constructor
  · rfl
  · decide

/-- C7 (amended): over label lists of length `n ≥ 2` whose labels contain
neither commas nor spaces and differ from the (comma- and space-free)
effective conjunction word, the join ends with `" {conjunction} "`
immediately followed by the final label, the padded conjunction occurs
exactly once in the output, and the output contains exactly `n-2` commas,
plus the Oxford comma exactly when the flag is on and `n ≥ 3`.
(Unrestricted labels can contain commas or the padded conjunction
themselves, defeating both counts, as the counterexample shows.) -/
theorem joinArgs_counts_amended (f : ErrorMessageFormer) (k conj : String)
    (items : List String) (hlen : 2 ≤ items.length)
    (hconj : (f.conjunctions.lookup k).getD k = conj)
    (hcchars : ∀ ch ∈ conj.data, ch ≠ ',' ∧ ch ≠ ' ')
    (hlabels : ∀ l ∈ items, (∀ ch ∈ l.data, ch ≠ ',' ∧ ch ≠ ' ') ∧ l ≠ conj) :
    ∃ out, f.joinArgs items k "" = some out ∧
      (∃ pre0 lst, items.getLast? = some lst ∧
        out = pre0 ++ " " ++ conj ++ " " ++ lst) ∧
      countSub ((" " ++ conj ++ " " : String)).data out.data = 1 ∧
      out.data.count ',' = items.length - 2 +
        (if f.use_oxford_comma = true ∧ 3 ≤ items.length then 1 else 0) := by
  have hpat : ((" " ++ conj ++ " " : String)).data = ' ' :: (conj.data ++ [' ']) := by
    simp [String.data_append, (show (" " : String).data = [' '] by decide)]
  have hc2 : ∀ ch ∈ conj.data, ch ≠ ' ' := fun ch hch => (hcchars ch hch).2
  have hcc : conj.data.count ',' = 0 :=
    List.count_eq_zero.mpr (fun h => (hcchars ',' h).1 rfl)
  rcases items with _ | ⟨a, _ | ⟨b, _ | ⟨c, rest⟩⟩⟩
  · simp at hlen
  · simp at hlen
  · -- two labels
    have ha := hlabels a (by simp)
    have hb := hlabels b (by simp)
    have hdata : (a ++ " " ++ conj ++ " " ++ b).data =
        a.data ++ (' ' :: (conj.data ++ ' ' :: b.data)) := by
      simp [String.data_append, List.append_assoc,
        (show (" " : String).data = [' '] by decide)]
    refine ⟨a ++ " " ++ conj ++ " " ++ b, ?_, ⟨a, b, rfl, rfl⟩, ?_, ?_⟩
    · simp [ErrorMessageFormer.joinArgs, hconj]
    · rw [hpat, hdata]
      rw [countSub_append_spacefree _ _ _ (fun ch hch => (ha.1 ch hch).2)]
      exact countSub_hit_once conj.data b.data hc2 (fun ch hch => (hb.1 ch hch).2)
    · have ca : a.data.count ',' = 0 :=
        List.count_eq_zero.mpr (fun h => (ha.1 ',' h).1 rfl)
      have cb : b.data.count ',' = 0 :=
        List.count_eq_zero.mpr (fun h => (hb.1 ',' h).1 rfl)
      rw [hdata]
      simp [List.count_append, List.count_cons, ca, cb, hcc]
  · -- three or more labels
    have hLne : (a :: b :: c :: rest) ≠ [] := by simp
    have hdlne : (a :: b :: c :: rest).dropLast ≠ [] := by simp
    have hdl : ∀ l ∈ (a :: b :: c :: rest).dropLast,
        (∀ ch ∈ l.data, ch ≠ ',' ∧ ch ≠ ' ') ∧ l.data ≠ conj.data := by
      intro l hl
      have h0 := hlabels l ((List.dropLast_sublist (a :: b :: c :: rest)).subset hl)
      exact ⟨h0.1, fun hh => h0.2 (String.ext hh)⟩
    have hlst := hlabels ((a :: b :: c :: rest).getLast hLne) (List.getLast_mem hLne)
    have hlsts : ∀ ch ∈ ((a :: b :: c :: rest).getLast hLne).data, ch ≠ ' ' :=
      fun ch hch => (hlst.1 ch hch).2
    have hlstc : ((a :: b :: c :: rest).getLast hLne).data.count ',' = 0 :=
      List.count_eq_zero.mpr (fun h => (hlst.1 ',' h).1 rfl)
    have hcnt := count_comma_strJoin ((a :: b :: c :: rest).dropLast) hdlne
      (fun l hl ch hch => ((hdl l hl).1 ch hch).1)
    cases hox : f.use_oxford_comma with
    | true =>
      have hdata : (strJoin ", " ((a :: b :: c :: rest).dropLast) ++ "," ++ " " ++ conj
          ++ " " ++ (a :: b :: c :: rest).getLast hLne).data =
          (strJoin ", " ((a :: b :: c :: rest).dropLast)).data ++
            (',' :: ' ' :: (conj.data ++ ' ' ::
              ((a :: b :: c :: rest).getLast hLne).data)) := by
        simp [String.data_append, List.append_assoc,
          (show ("," : String).data = [','] by decide),
          (show (" " : String).data = [' '] by decide)]
      refine ⟨strJoin ", " ((a :: b :: c :: rest).dropLast) ++ "," ++ " " ++ conj ++ " "
        ++ (a :: b :: c :: rest).getLast hLne, ?_,
        ⟨strJoin ", " ((a :: b :: c :: rest).dropLast) ++ ",",
          (a :: b :: c :: rest).getLast hLne,
          List.getLast?_eq_getLast _ hLne, rfl⟩, ?_, ?_⟩
      · simp [ErrorMessageFormer.joinArgs, hconj, hox]
      · rw [hpat, hdata]
        rw [countSub_strJoin conj.data hcchars ((a :: b :: c :: rest).dropLast)
          (',' :: ' ' :: (conj.data ++ ' ' :: ((a :: b :: c :: rest).getLast hLne).data))
          hdlne hdl (Or.inl rfl)]
        rw [countSub_cons_of_ne _ ',' _ (by decide)]
        exact countSub_hit_once conj.data _ hc2 hlsts
      · rw [hdata]
        simp only [List.count_append, List.count_cons, hcnt, hcc, hlstc,
          List.length_dropLast, List.length_cons, hox]
        simp
    | false =>
      have hdata : (strJoin ", " ((a :: b :: c :: rest).dropLast) ++ "" ++ " " ++ conj
          ++ " " ++ (a :: b :: c :: rest).getLast hLne).data =
          (strJoin ", " ((a :: b :: c :: rest).dropLast)).data ++
            (' ' :: (conj.data ++ ' ' ::
              ((a :: b :: c :: rest).getLast hLne).data)) := by
        simp [String.data_append, List.append_assoc,
          (show ("" : String).data = [] by decide),
          (show (" " : String).data = [' '] by decide)]
      refine ⟨strJoin ", " ((a :: b :: c :: rest).dropLast) ++ "" ++ " " ++ conj ++ " "
        ++ (a :: b :: c :: rest).getLast hLne, ?_,
        ⟨strJoin ", " ((a :: b :: c :: rest).dropLast) ++ "",
          (a :: b :: c :: rest).getLast hLne,
          List.getLast?_eq_getLast _ hLne, rfl⟩, ?_, ?_⟩
      · simp [ErrorMessageFormer.joinArgs, hconj, hox]
      · rw [hpat, hdata]
        rw [countSub_strJoin conj.data hcchars ((a :: b :: c :: rest).dropLast)
          (' ' :: (conj.data ++ ' ' :: ((a :: b :: c :: rest).getLast hLne).data))
          hdlne hdl (Or.inr rfl)]
        exact countSub_hit_once conj.data _ hc2 hlsts
      · rw [hdata]
        simp only [List.count_append, List.count_cons, hcnt, hcc, hlstc,
          List.length_dropLast, List.length_cons, hox]
        simp

/-- C7 witness: the amended statement at the default formatter and labels
`["a", "b", "c"]` with conjunction key `"and"`. -/
theorem joinArgs_counts_amended_witness :
    ∃ out, ErrorMsgFormer.joinArgs ["a", "b", "c"] "and" "" = some out ∧
      (∃ pre0 lst, (["a", "b", "c"] : List String).getLast? = some lst ∧
        out = pre0 ++ " " ++ "and" ++ " " ++ lst) ∧
      countSub ((" " ++ "and" ++ " " : String)).data out.data = 1 ∧
      out.data.count ',' = (["a", "b", "c"] : List String).length - 2 +
        (if ErrorMsgFormer.use_oxford_comma = true ∧
          3 ≤ (["a", "b", "c"] : List String).length then 1 else 0) :=
  joinArgs_counts_amended ErrorMsgFormer "and" "and" ["a", "b", "c"]
    (by decide) (by decide) (by decide) (by decide)

end VtErr
